import Mathlib

/-!
Formal model of the eip-protocol crate core: the CIP attribute codec
(attr.rs), the message-router request and response codec (message_router.rs),
the length-prefixed framing primitive (eip.rs, item.rs) and the session
registry (session.rs). Machine integers are modelled as Nat or Int with
explicit reductions modulo a power of two at the points where the Rust code
casts; byte buffers are lists of byte values; the growable BytesMut sink is
modelled with its written data and its allocation capacity.
-/

deriving instance DecidableEq for Except

/-- Value of usize::MAX on the 64 bit targets the crate runs on. -/
def USIZE_MAX : Nat := 2 ^ 64 - 1

/-- error_code::ErrorCode, a newtype over u8. -/
structure ErrorCode where
  val : Nat
deriving DecidableEq, Repr

def SUCCESS : ErrorCode := ⟨0x00⟩

def UNSUPPORTED_COMMAND : ErrorCode := ⟨0x01⟩

def INSUFFICIENT_MEMORY : ErrorCode := ⟨0x02⟩

def INCORRECT_DATA : ErrorCode := ⟨0x03⟩

def PATH_SEGMENT_ERROR : ErrorCode := ⟨0x04⟩

def PATH_DESTINATION_UNKNOWN : ErrorCode := ⟨0x05⟩

def ATTRIBUTE_NOT_SETTABLE : ErrorCode := ⟨0x0e⟩

def REPLY_DATA_TOO_LARGE : ErrorCode := ⟨0x11⟩

def NOT_ENOUGH_DATA : ErrorCode := ⟨0x13⟩

def ATTRIBUTE_NOT_SUPPORTED : ErrorCode := ⟨0x14⟩

def TOO_MUCH_DATA : ErrorCode := ⟨0x15⟩

def OBJECT_DOES_NOT_EXIST : ErrorCode := ⟨0x16⟩

def INVALID_PARAMETER : ErrorCode := ⟨0x20⟩

def MESSAGE_FORMAT_ERROR : ErrorCode := ⟨0x24⟩

def ATTRIBUTE_NOT_GETTABLE : ErrorCode := ⟨0x2c⟩

def INVALID_SESSION : ErrorCode := ⟨0x64⟩

def UNSUPPORTED_VERSION : ErrorCode := ⟨0x69⟩

/-- Model of bytes::BytesMut: the written bytes plus the allocation
capacity. On BytesMut the BufMut method remaining_mut returns
usize::MAX - len because the buffer grows on demand; the capacity only
matters for split_off, which panics past it. -/
structure BytesMut where
  data : List Nat
  cap : Nat
deriving DecidableEq, Repr

/-- remaining_mut of the growable BytesMut sink. -/
def BytesMut.remainingMut (b : BytesMut) : Nat := USIZE_MAX - b.data.length

/-- put_u8: append one byte (a u8 cast reduces the value mod 256). -/
def BytesMut.putU8 (b : BytesMut) (v : Nat) : BytesMut :=
  ⟨b.data ++ [v % 256], max b.cap (b.data.length + 1)⟩

/-- put_u16_le: append the two little-endian bytes of a u16 value. -/
def BytesMut.putU16le (b : BytesMut) (v : Nat) : BytesMut :=
  ⟨b.data ++ [v % 256, v / 256 % 256], max b.cap (b.data.length + 2)⟩

/-- put_u32_le: append the four little-endian bytes of a u32 value. -/
def BytesMut.putU32le (b : BytesMut) (v : Nat) : BytesMut :=
  ⟨b.data ++ [v % 256, v / 256 % 256, v / 65536 % 256, v / 16777216 % 256],
    max b.cap (b.data.length + 4)⟩

/-- put_i8: append the two-complement byte of an i8 value. -/
def BytesMut.putI8 (b : BytesMut) (v : Int) : BytesMut :=
  ⟨b.data ++ [(v % 256).toNat], max b.cap (b.data.length + 1)⟩

/-- put_i16_le: append the two little-endian two-complement bytes of i16. -/
def BytesMut.putI16le (b : BytesMut) (v : Int) : BytesMut :=
  ⟨b.data ++ [(v % 65536).toNat % 256, (v % 65536).toNat / 256 % 256],
    max b.cap (b.data.length + 2)⟩

/-- put_i32_le: append the four little-endian two-complement bytes of i32. -/
def BytesMut.putI32le (b : BytesMut) (v : Int) : BytesMut :=
  ⟨b.data ++ [(v % 4294967296).toNat % 256, (v % 4294967296).toNat / 256 % 256,
      (v % 4294967296).toNat / 65536 % 256, (v % 4294967296).toNat / 16777216 % 256],
    max b.cap (b.data.length + 4)⟩

/-- put of a raw u8 slice: append the bytes as they are. -/
def BytesMut.putBytes (b : BytesMut) (xs : List Nat) : BytesMut :=
  ⟨b.data ++ xs, max b.cap (b.data.length + xs.length)⟩

/-- BytesMut::split_off(at): self keeps the region [0, at), the returned
buffer gets [at, capacity). Panics (modelled as none) when at exceeds the
capacity. -/
def BytesMut.splitOff (b : BytesMut) (i : Nat) : Option (BytesMut × BytesMut) :=
  if i ≤ b.cap then
    some (⟨b.data.take i, i⟩, ⟨b.data.drop i, b.cap - i⟩)
  else none

/-- BytesMut::unsplit: rejoin the two buffers, data of self first. -/
def BytesMut.unsplit (a b : BytesMut) : BytesMut :=
  ⟨a.data ++ b.data, a.cap + b.cap⟩

/-- get_i8: read one byte as a signed 8 bit value. -/
def getI8 (b : Nat) : Int :=
  if b < 128 then (b : Int) else (b : Int) - 256

/-- get_i16_le: combine two little-endian bytes into a signed 16 bit value. -/
def getI16le (lo hi : Nat) : Int :=
  if lo + 256 * hi < 32768 then ((lo + 256 * hi : Nat) : Int)
  else ((lo + 256 * hi : Nat) : Int) - 65536

/-- get_u16_le: combine two little-endian bytes into a u16 value. -/
def getU16le (lo hi : Nat) : Nat := lo + 256 * hi

/-- get_u32_le: combine four little-endian bytes into a u32 value. -/
def getU32le (b0 b1 b2 b3 : Nat) : Nat :=
  b0 + 256 * b1 + 65536 * b2 + 16777216 * b3

/-- get_i32_le: combine four little-endian bytes into a signed 32 bit value. -/
def getI32le (b0 b1 b2 b3 : Nat) : Int :=
  if getU32le b0 b1 b2 b3 < 2147483648 then ((getU32le b0 b1 b2 b3 : Nat) : Int)
  else ((getU32le b0 b1 b2 b3 : Nat) : Int) - 4294967296

/-- attr::AccessCode, a bitmask over u8 with GET = 1 and SET = 2. -/
structure AccessCode where
  code : Nat
deriving DecidableEq, Repr

/-- AccessCode::getable: bit GET is set. -/
def AccessCode.getable (a : AccessCode) : Bool := a.code &&& 1 != 0

/-- AccessCode::settable: bit SET is set. -/
def AccessCode.settable (a : AccessCode) : Bool := a.code &&& 2 != 0

/-- message_router::Request. The Rust fields class, instance and attribute
are Option u16 values; service is the u8 service code. -/
structure Request where
  service : Nat
  «class» : Option Nat
  «instance» : Option Nat
  «attribute» : Option Nat
deriving DecidableEq, Repr

def Request.TYPE_MASK : Nat := 0xe0

def Request.TYPE_LOGICAL : Nat := 0x20

def Request.LEVEL_MASK : Nat := 0x1c

def Request.LEVEL_CLASS : Nat := 0x00

def Request.LEVEL_INSTANCE : Nat := 0x04

def Request.LEVEL_ATTRIBUTE : Nat := 0x10

def Request.FORMAT_MASK : Nat := 0x03

def Request.FORMAT_8 : Nat := 0x00

def Request.FORMAT_16 : Nat := 0x01

/-- The level dispatch at the end of Request::deserialize_logical: store the
decoded value in the field selected by the level bits, or fail with
PATH_SEGMENT_ERROR on an unknown level. -/
def Request.setLevel (r : Request) (level v : Nat) (rest : List Nat) :
    Except ErrorCode (Request × List Nat) :=
  if level = Request.LEVEL_CLASS then .ok ({r with «class» := some v}, rest)
  else if level = Request.LEVEL_INSTANCE then .ok ({r with «instance» := some v}, rest)
  else if level = Request.LEVEL_ATTRIBUTE then .ok ({r with «attribute» := some v}, rest)
  else .error PATH_SEGMENT_ERROR

/-- Request::deserialize_logical: decode the value of one logical segment
whose tag byte is seg, in 8 bit form (one value byte) or 16 bit form (one
pad byte then a little-endian u16), then dispatch on the level bits. Any
other format and any truncation fails with PATH_SEGMENT_ERROR. -/
def Request.deserializeLogical (r : Request) (buf : List Nat) (seg : Nat) :
    Except ErrorCode (Request × List Nat) :=
  if seg &&& Request.FORMAT_MASK = Request.FORMAT_8 then
    match buf with
    | [] => .error PATH_SEGMENT_ERROR
    | v :: rest => Request.setLevel r (seg &&& Request.LEVEL_MASK) v rest
  else if seg &&& Request.FORMAT_MASK = Request.FORMAT_16 then
    match buf with
    | _pad :: lo :: hi :: rest =>
        Request.setLevel r (seg &&& Request.LEVEL_MASK) (getU16le lo hi) rest
    | _ => .error PATH_SEGMENT_ERROR
  else .error PATH_SEGMENT_ERROR

/-- The segment loop of Request::deserialize: read one tag byte per declared
segment, accept only the logical type, and fail with PATH_SEGMENT_ERROR on
a missing tag or a non logical type. -/
def Request.deserializeSegs (r : Request) (buf : List Nat) :
    Nat → Except ErrorCode (Request × List Nat)
  | 0 => .ok (r, buf)
  | n + 1 =>
    match buf with
    | [] => .error PATH_SEGMENT_ERROR
    | seg :: rest =>
      if seg &&& Request.TYPE_MASK = Request.TYPE_LOGICAL then
        match Request.deserializeLogical r rest seg with
        | .error e => .error e
        | .ok (r2, rest2) => Request.deserializeSegs r2 rest2 n
      else .error PATH_SEGMENT_ERROR

/-- Request::deserialize: fewer than serial_size = 2 bytes fails with
PATH_SEGMENT_ERROR, otherwise read the service byte and the segment count
byte and run the segment loop. -/
def Request.deserialize (r : Request) (buf : List Nat) :
    Except ErrorCode (Request × List Nat) :=
  match buf with
  | svc :: n :: rest => Request.deserializeSegs {r with service := svc} rest n
  | _ => .error PATH_SEGMENT_ERROR

/-- Request::serialize_logical: one segment in 8 bit form when the value
fits one byte, otherwise in 16 bit form with a pad byte; each form first
checks the room in the sink. -/
def Request.serializeLogical (buf : BytesMut) (v tag : Nat) :
    Except ErrorCode BytesMut :=
  if v ≤ 255 then
    if buf.remainingMut < 2 then .error REPLY_DATA_TOO_LARGE
    else .ok ((buf.putU8 (Request.TYPE_LOGICAL ||| Request.FORMAT_8 ||| tag)).putU8 v)
  else
    if buf.remainingMut < 4 then .error REPLY_DATA_TOO_LARGE
    else .ok (((buf.putU8 (Request.TYPE_LOGICAL ||| Request.FORMAT_16 ||| tag)).putU8 0).putU16le v)

/-- Request::serialize: reserve serial_size = 2 bytes with split_off, emit
the class, instance and attribute segments in that nesting (a later segment
only when every earlier one is present) while counting them, then write the
service byte and the count into the reserved region and unsplit. The outer
Option is the split_off panic past the capacity. -/
def Request.serialize (r : Request) (buf : BytesMut) :
    Option (Except ErrorCode BytesMut) :=
  if buf.remainingMut < 2 then some (.error REPLY_DATA_TOO_LARGE)
  else
    match buf.splitOff 2 with
    | none => none
    | some (hd, b0) =>
      let step : Except ErrorCode (BytesMut × Nat) :=
        match r.«class» with
        | none => .ok (b0, 0)
        | some c =>
          match Request.serializeLogical b0 c Request.LEVEL_CLASS with
          | .error e => .error e
          | .ok b1 =>
            match r.«instance» with
            | none => .ok (b1, 1)
            | some i =>
              match Request.serializeLogical b1 i Request.LEVEL_INSTANCE with
              | .error e => .error e
              | .ok b2 =>
                match r.«attribute» with
                | none => .ok (b2, 2)
                | some a =>
                  match Request.serializeLogical b2 a Request.LEVEL_ATTRIBUTE with
                  | .error e => .error e
                  | .ok b3 => .ok (b3, 3)
      match step with
      | .error e => some (.error e)
      | .ok (b, n) => some (.ok (((hd.putU8 r.service).putU8 n).unsplit b))

/-- message_router::Response. The additional_status array holds at most
ADDITIONAL_STATUS_MAX = 2 u16 words, modelled as a pair. -/
structure Response where
  service : Nat
  generalStatus : ErrorCode
  additionalStatusSize : Nat
  additionalStatus : Nat × Nat
deriving DecidableEq, Repr

def Response.ADDITIONAL_STATUS_MAX : Nat := 2

/-- Store into additional_status[i] for i below 2. -/
def Response.setStatus (s : Nat × Nat) (i v : Nat) : Nat × Nat :=
  if i = 0 then (v, s.2) else (s.1, v)

/-- Response::serial_size: the 4 byte header plus 2 bytes per declared
additional status word. -/
def Response.serialSize (r : Response) : Nat := 4 + r.additionalStatusSize * 2

/-- The word loop of Response::deserialize: the first index argument is the
running loop index, the second the number of words still to read. Words at
index 2 and beyond are consumed from the buffer, discarded, and clamp the
stored count to ADDITIONAL_STATUS_MAX. -/
def Response.deserializeWords (r : Response) (buf : List Nat) :
    Nat → Nat → Response × List Nat
  | _, 0 => (r, buf)
  | i, k + 1 =>
    match buf with
    | lo :: hi :: rest =>
      if i < Response.ADDITIONAL_STATUS_MAX then
        Response.deserializeWords
          {r with additionalStatus := Response.setStatus r.additionalStatus i (getU16le lo hi)}
          rest (i + 1) k
      else
        Response.deserializeWords
          {r with additionalStatusSize := Response.ADDITIONAL_STATUS_MAX}
          rest (i + 1) k
    | _ => (r, buf)

/-- Response::deserialize: reset the stored count, require the 4 byte
header (serial_size with count 0), read service, skip the reserved byte,
read status and the declared word count, require count times 2 more bytes,
then run the word loop which clamps past 2 words. -/
def Response.deserialize (r : Response) (buf : List Nat) :
    Except ErrorCode (Response × List Nat) :=
  match buf with
  | svc :: _rsv :: st :: sz :: rest =>
    if rest.length < sz * 2 then .error NOT_ENOUGH_DATA
    else
      .ok (Response.deserializeWords
        {r with service := svc, generalStatus := ⟨st⟩, additionalStatusSize := sz}
        rest 0 sz)
  | _ => .error NOT_ENOUGH_DATA

/-- The word loop of Response::serialize: write the words below the already
clamped count as little-endian u16 values. -/
def Response.serializeWords (buf : BytesMut) (s : Nat × Nat) :
    Nat → Nat → BytesMut
  | _, 0 => buf
  | i, k + 1 =>
    Response.serializeWords (buf.putU16le (if i = 0 then s.1 else s.2)) s (i + 1) k

/-- Response::serialize: check the room for serial_size (computed from the
unclamped count), write the 4 byte header with the count clamped to
ADDITIONAL_STATUS_MAX, then the clamped number of words. -/
def Response.serialize (r : Response) (buf : BytesMut) :
    Except ErrorCode BytesMut :=
  if buf.remainingMut < r.serialSize then .error REPLY_DATA_TOO_LARGE
  else
    let b1 := ((buf.putU8 r.service).putU8 0).putU8 r.generalStatus.val
    let size := if r.additionalStatusSize > Response.ADDITIONAL_STATUS_MAX then
      Response.ADDITIONAL_STATUS_MAX else r.additionalStatusSize
    .ok (Response.serializeWords (b1.putU8 size) r.additionalStatus 0 size)

/-- item::Item, the frame header: a u16 type id plus a length stored as
usize but serialized as u16. -/
structure Item where
  typeId : Nat
  len : Nat
deriving DecidableEq, Repr

/-- Item::serial_size: two u16 fields. -/
def Item.serialSize : Nat := 4

/-- Item::serialize: fail with REPLY_DATA_TOO_LARGE when the room is short
or the length does not fit a u16, else write type id and length as
little-endian u16 values. -/
def Item.serialize (it : Item) (buf : BytesMut) : Except ErrorCode BytesMut :=
  if buf.remainingMut < Item.serialSize ∨ it.len > 65535 then .error REPLY_DATA_TOO_LARGE
  else .ok ((buf.putU16le it.typeId).putU16le it.len)

/-- Item::deserialize: require 4 bytes, read type id and length. -/
def Item.deserialize (_it : Item) (buf : List Nat) :
    Except ErrorCode (Item × List Nat) :=
  match buf with
  | b0 :: b1 :: b2 :: b3 :: rest => .ok (⟨getU16le b0 b1, getU16le b2 b3⟩, rest)
  | _ => .error NOT_ENOUGH_DATA

/-- eip::split_off: check remaining_mut against the reservation size, then
BytesMut::split_off. The outer Option is the split_off panic past the
capacity. -/
def eipSplitOff (buf : BytesMut) (s : Nat) :
    Option (Except ErrorCode (BytesMut × BytesMut)) :=
  if buf.remainingMut < s then some (.error REPLY_DATA_TOO_LARGE)
  else
    match buf.splitOff s with
    | none => none
    | some p => some (.ok p)

/-- The reserve and backfill framing protocol as used by the callers of
Item::split_off: reserve the 4 byte header region, write the body bytes
into the returned continuation, set the header length to the length of the
continuation, serialize the header into the reserved region, unsplit. -/
def frameBackfill (tid : Nat) (body : List Nat) (buf : BytesMut) :
    Option (Except ErrorCode BytesMut) :=
  match eipSplitOff buf Item.serialSize with
  | none => none
  | some (.error e) => some (.error e)
  | some (.ok (hd, rest)) =>
    let rest2 := rest.putBytes body
    match Item.serialize ⟨tid, rest2.data.length⟩ hd with
    | .error e => some (.error e)
    | .ok hd2 => some (.ok (hd2.unsplit rest2))

/-- The sequential reference encoding the spec compares the framing
protocol against: serialize the header with the length already set to the
body length, then append the body. -/
def frameDirect (tid : Nat) (body : List Nat) (buf : BytesMut) :
    Except ErrorCode BytesMut :=
  match Item.serialize ⟨tid, body.length⟩ buf with
  | .error e => .error e
  | .ok b => .ok (b.putBytes body)

/-- encapsulation::VERSION, the supported protocol version. -/
def VERSION : Nat := 1

/-- session::Session: the id counter plus the set of issued ids. -/
structure Session where
  id : Nat
  set : Finset Nat

/-- The allocation loop of Session::register: repeatedly advance the u32
counter (wrapping) until the insert into the issued set succeeds. The fuel
argument bounds the search; the Rust loop has no bound and diverges when
every u32 value is issued. -/
def Session.findFree (s : Finset Nat) : Nat → Nat → Option Nat
  | _, 0 => none
  | idv, fuel + 1 =>
    let idn := (idv + 1) % 2 ^ 32
    if idn ∈ s then Session.findFree s idn fuel else some idn

/-- Session::register: check the 4 byte request, check the room for the 4
byte response, read version and option flags, allocate a fresh id, write
the response header with the supported VERSION and zero flags, and return
UNSUPPORTED_VERSION as the outcome when the requested version is newer.
The result carries the new registry state, the rest of the request buffer,
the response sink, the id out parameter and the outcome. -/
def Session.register (s : Session) (req : List Nat) (res : BytesMut) (idArg : Nat) :
    Option (Session × List Nat × BytesMut × Nat × Except ErrorCode Unit) :=
  if req.length < 4 then some (s, req, res, idArg, .error NOT_ENOUGH_DATA)
  else if res.remainingMut < 4 then some (s, req, res, idArg, .error REPLY_DATA_TOO_LARGE)
  else
    match req with
    | v0 :: v1 :: _o0 :: _o1 :: rest =>
      let version := getU16le v0 v1
      match Session.findFree s.set s.id (2 ^ 32) with
      | none => none
      | some newId =>
        let s2 : Session := ⟨newId, insert newId s.set⟩
        let res2 := (res.putU16le VERSION).putU16le 0
        if version > VERSION then some (s2, rest, res2, newId, .error UNSUPPORTED_VERSION)
        else some (s2, rest, res2, newId, .ok ())
    | _ => some (s, req, res, idArg, .error NOT_ENOUGH_DATA)

/-- Session::unregister: remove the id, fail with INVALID_SESSION when it
was not issued. -/
def Session.unregister (s : Session) (idv : Nat) :
    Session × Except ErrorCode Unit :=
  if idv ∈ s.set then (⟨s.id, s.set.erase idv⟩, .ok ())
  else (s, .error INVALID_SESSION)

/-- Session::check: pure membership query. -/
def Session.check (s : Session) (idv : Nat) : Bool := idv ∈ s.set

/-- attr::Sint, the signed 8 bit attribute. -/
structure Sint where
  val : Int
  acc : AccessCode
deriving DecidableEq, Repr

/-- Sint::serialize: check wire read permission, then the room, then write
the byte. -/
def Sint.serialize (a : Sint) (buf : BytesMut) : Except ErrorCode BytesMut :=
  if !a.acc.getable then .error ATTRIBUTE_NOT_GETTABLE
  else if buf.remainingMut < 1 then .error REPLY_DATA_TOO_LARGE
  else .ok (buf.putI8 a.val)

/-- Sint::deserialize: check wire write permission, then the remaining
bytes, then read the byte. -/
def Sint.deserialize (a : Sint) (buf : List Nat) :
    Except ErrorCode (Sint × List Nat) :=
  if !a.acc.settable then .error ATTRIBUTE_NOT_SETTABLE
  else
    match buf with
    | b :: rest => .ok ({a with val := getI8 b}, rest)
    | [] => .error NOT_ENOUGH_DATA

/-- attr::Int, the signed 16 bit attribute (named IntAttr here because Int
is the Lean integer type). -/
structure IntAttr where
  val : Int
  acc : AccessCode
deriving DecidableEq, Repr

/-- Int::serialize for the 16 bit signed attribute. -/
def IntAttr.serialize (a : IntAttr) (buf : BytesMut) : Except ErrorCode BytesMut :=
  if !a.acc.getable then .error ATTRIBUTE_NOT_GETTABLE
  else if buf.remainingMut < 2 then .error REPLY_DATA_TOO_LARGE
  else .ok (buf.putI16le a.val)

/-- Int::deserialize for the 16 bit signed attribute. -/
def IntAttr.deserialize (a : IntAttr) (buf : List Nat) :
    Except ErrorCode (IntAttr × List Nat) :=
  if !a.acc.settable then .error ATTRIBUTE_NOT_SETTABLE
  else
    match buf with
    | lo :: hi :: rest => .ok ({a with val := getI16le lo hi}, rest)
    | _ => .error NOT_ENOUGH_DATA

/-- attr::DInt, the signed 32 bit attribute. -/
structure DInt where
  val : Int
  acc : AccessCode
deriving DecidableEq, Repr

/-- DInt::serialize. -/
def DInt.serialize (a : DInt) (buf : BytesMut) : Except ErrorCode BytesMut :=
  if !a.acc.getable then .error ATTRIBUTE_NOT_GETTABLE
  else if buf.remainingMut < 4 then .error REPLY_DATA_TOO_LARGE
  else .ok (buf.putI32le a.val)

/-- DInt::deserialize. -/
def DInt.deserialize (a : DInt) (buf : List Nat) :
    Except ErrorCode (DInt × List Nat) :=
  if !a.acc.settable then .error ATTRIBUTE_NOT_SETTABLE
  else
    match buf with
    | b0 :: b1 :: b2 :: b3 :: rest => .ok ({a with val := getI32le b0 b1 b2 b3}, rest)
    | _ => .error NOT_ENOUGH_DATA

/-- attr::Usint, the unsigned 8 bit attribute. -/
structure Usint where
  val : Nat
  acc : AccessCode
deriving DecidableEq, Repr

/-- Usint::serialize. -/
def Usint.serialize (a : Usint) (buf : BytesMut) : Except ErrorCode BytesMut :=
  if !a.acc.getable then .error ATTRIBUTE_NOT_GETTABLE
  else if buf.remainingMut < 1 then .error REPLY_DATA_TOO_LARGE
  else .ok (buf.putU8 a.val)

/-- Usint::deserialize. -/
def Usint.deserialize (a : Usint) (buf : List Nat) :
    Except ErrorCode (Usint × List Nat) :=
  if !a.acc.settable then .error ATTRIBUTE_NOT_SETTABLE
  else
    match buf with
    | b :: rest => .ok ({a with val := b}, rest)
    | [] => .error NOT_ENOUGH_DATA

/-- attr::Uint, the unsigned 16 bit attribute. -/
structure Uint where
  val : Nat
  acc : AccessCode
deriving DecidableEq, Repr

/-- Uint::serialize. -/
def Uint.serialize (a : Uint) (buf : BytesMut) : Except ErrorCode BytesMut :=
  if !a.acc.getable then .error ATTRIBUTE_NOT_GETTABLE
  else if buf.remainingMut < 2 then .error REPLY_DATA_TOO_LARGE
  else .ok (buf.putU16le a.val)

/-- Uint::deserialize. -/
def Uint.deserialize (a : Uint) (buf : List Nat) :
    Except ErrorCode (Uint × List Nat) :=
  if !a.acc.settable then .error ATTRIBUTE_NOT_SETTABLE
  else
    match buf with
    | lo :: hi :: rest => .ok ({a with val := getU16le lo hi}, rest)
    | _ => .error NOT_ENOUGH_DATA

/-- attr::Duint, the unsigned 32 bit attribute. -/
structure Duint where
  val : Nat
  acc : AccessCode
deriving DecidableEq, Repr

/-- Duint::serialize. -/
def Duint.serialize (a : Duint) (buf : BytesMut) : Except ErrorCode BytesMut :=
  if !a.acc.getable then .error ATTRIBUTE_NOT_GETTABLE
  else if buf.remainingMut < 4 then .error REPLY_DATA_TOO_LARGE
  else .ok (buf.putU32le a.val)

/-- Duint::deserialize. -/
def Duint.deserialize (a : Duint) (buf : List Nat) :
    Except ErrorCode (Duint × List Nat) :=
  if !a.acc.settable then .error ATTRIBUTE_NOT_SETTABLE
  else
    match buf with
    | b0 :: b1 :: b2 :: b3 :: rest => .ok ({a with val := getU32le b0 b1 b2 b3}, rest)
    | _ => .error NOT_ENOUGH_DATA

/-- attr::ShortString: the stored value as its UTF-8 bytes, the declared
capacity and the access mask. -/
structure ShortString where
  buf : List Nat
  cap : Nat
  acc : AccessCode
deriving DecidableEq, Repr

/-- ShortString::with_capacity: when the initial value is longer than the
capacity the code only logs a warning claiming truncation; the value is
stored unchanged. -/
def ShortString.withCapacity (buf : List Nat) (acc : AccessCode) (capacity : Nat) :
    ShortString :=
  ⟨buf, capacity, acc⟩

/-- str::is_char_boundary on the UTF-8 bytes of a Rust String: index 0, the
total length, or a byte that is not a continuation byte. -/
def isCharBoundary (s : List Nat) (i : Nat) : Bool :=
  if i = 0 then true
  else
    match s.get? i with
    | none => i == s.length
    | some b => decide (b < 128) || decide (192 ≤ b)

/-- ShortString::set: a value longer than the capacity is truncated with
the byte slice taken at index cap; that slice panics (modelled as none)
when cap is not a character boundary of the value. -/
def ShortString.set (s : ShortString) (v : List Nat) : Option ShortString :=
  if v.length > s.cap then
    if isCharBoundary v s.cap then some {s with buf := v.take s.cap} else none
  else some {s with buf := v}

/-- C1: a Request with service 0x0e, class 0x12, instance 0x34 and
attribute 0x56 serializes to exactly the bytes 0E 03 20 12 24 34 30 56,
and those bytes deserialize back to the same service and triple; a Request
whose class, instance and attribute each exceed 255 emits every segment in
16 bit form: tag with format bits 01, a pad byte, then the little-endian
16 bit value. -/
theorem request_path_roundtrip_c1 :
    (Request.serialize ⟨0x0e, some 0x12, some 0x34, some 0x56⟩ ⟨[], 100⟩
      = some (.ok ⟨[0x0e, 0x03, 0x20, 0x12, 0x24, 0x34, 0x30, 0x56], 100⟩))
    ∧ (Request.deserialize ⟨0, none, none, none⟩ [0x0e, 0x03, 0x20, 0x12, 0x24, 0x34, 0x30, 0x56]
      = .ok (⟨0x0e, some 0x12, some 0x34, some 0x56⟩, []))
    ∧ ∀ s c i a : Nat, 255 < c → c ≤ 65535 → 255 < i → i ≤ 65535 → 255 < a → a ≤ 65535 →
      (Request.serialize ⟨s, some c, some i, some a⟩ ⟨[], 100⟩).map (Except.map BytesMut.data)
        = some (.ok [s % 256, 3, 0x21, 0, c % 256, c / 256, 0x25, 0, i % 256, i / 256,
            0x31, 0, a % 256, a / 256]) := by
  refine ⟨by decide, by decide, ?_⟩
  intro s c i a hc1 hc2 hi1 hi2 ha1 ha2
  have hc3 : ¬ c ≤ 255 := by omega
  have hi3 : ¬ i ≤ 255 := by omega
  have ha3 : ¬ a ≤ 255 := by omega
  have hc4 : c / 256 % 256 = c / 256 := Nat.mod_eq_of_lt (by omega)
  have hi4 : i / 256 % 256 = i / 256 := Nat.mod_eq_of_lt (by omega)
  have ha4 : a / 256 % 256 = a / 256 := Nat.mod_eq_of_lt (by omega)
  simp [Request.serialize, Request.serializeLogical, BytesMut.remainingMut,
    BytesMut.splitOff, BytesMut.putU8, BytesMut.putU16le, BytesMut.unsplit,
    USIZE_MAX, hc3, hi3, ha3, hc4, hi4, ha4, Except.map,
    Request.TYPE_LOGICAL, Request.FORMAT_8, Request.FORMAT_16,
    Request.LEVEL_CLASS, Request.LEVEL_INSTANCE, Request.LEVEL_ATTRIBUTE]

/-- C1 witness: the 16 bit branch at the concrete values of the spec
example. -/
theorem request_path_roundtrip_c1_witness :
    (Request.serialize ⟨0x0e, some 0x1234, some 0x5678, some 0x9012⟩ ⟨[], 100⟩).map
        (Except.map BytesMut.data)
      = some (.ok [0x0e, 3, 0x21, 0, 0x34, 0x12, 0x25, 0, 0x78, 0x56, 0x31, 0, 0x12, 0x90]) := by
  have h := request_path_roundtrip_c1.2.2 0x0e 0x1234 0x5678 0x9012
    (by decide) (by decide) (by decide) (by decide) (by decide) (by decide)
  simpa using h

/-- C5: segments are emitted only in the order class, instance, attribute,
each only when every earlier one is present: with class absent the output
equals the output for a request with no segments at all, with instance
absent the attribute is silently dropped, and a request with only the
attribute set emits a segment count of zero and no segment bytes. -/
theorem request_segment_order_c5 :
    ∀ (s : Nat) (i a : Option Nat) (buf : BytesMut),
      (Request.serialize ⟨s, none, i, a⟩ buf = Request.serialize ⟨s, none, none, none⟩ buf)
      ∧ (∀ c, Request.serialize ⟨s, some c, none, a⟩ buf
          = Request.serialize ⟨s, some c, none, none⟩ buf)
      ∧ ((Request.serialize ⟨s, none, i, a⟩ ⟨[], 100⟩).map (Except.map BytesMut.data)
          = some (.ok [s % 256, 0])) := by
  intro s i a buf
  exact ⟨rfl, fun c => rfl, rfl⟩

/-- C3: a Response with additional_status_size 3, above the hard cap of 2,
serializes with a count byte of 2 and only the 2 stored words and does not
fail; deserializing a wire Response declaring 3 words keeps the first 2,
consumes the bytes of the third from the cursor, and stores the clamped
count 2. -/
theorem response_additional_status_clamp_c3 :
    ∀ (r0 : Response) (svc rsv st w0 w1 a0 a1 b0 b1 c0 c1 : Nat) (rest : List Nat),
      (Response.serialize ⟨svc, ⟨st⟩, 3, (w0, w1)⟩ ⟨[], 100⟩
        = .ok ⟨[svc % 256, 0, st % 256, 2, w0 % 256, w0 / 256 % 256,
            w1 % 256, w1 / 256 % 256], 100⟩)
      ∧ (Response.deserialize r0 (svc :: rsv :: st :: 3 :: a0 :: a1 :: b0 :: b1 :: c0 :: c1 :: rest)
        = .ok (⟨svc, ⟨st⟩, 2, (getU16le a0 a1, getU16le b0 b1)⟩, rest)) := by
  intro r0 svc rsv st w0 w1 a0 a1 b0 b1 c0 c1 rest
  constructor
  · rfl
  · simp only [Response.deserialize, List.length_cons]
    rw [if_neg (by omega)]
    simp [Response.deserializeWords, Response.setStatus, Response.ADDITIONAL_STATUS_MAX]

/-- C9: Request::deserialize fails with PATH_SEGMENT_ERROR, and never with
NOT_ENOUGH_DATA, whenever a segment tag has a non logical type, a format
other than 00 or 01, a level that is none of class, instance or attribute,
or the buffer ends mid segment: too short for the 2 byte header, missing
tag byte, missing 8 bit value byte, or fewer than the 3 bytes of the pad
plus 16 bit value. -/
theorem request_deserialize_path_error_c9 :
    ∀ (r : Request) (svc tag : Nat) (rest : List Nat),
      (Request.deserialize r [] = .error PATH_SEGMENT_ERROR)
      ∧ (Request.deserialize r [svc] = .error PATH_SEGMENT_ERROR)
      ∧ (Request.deserialize r [svc, 1] = .error PATH_SEGMENT_ERROR)
      ∧ (tag &&& 0xe0 ≠ 0x20 →
          Request.deserialize r (svc :: 1 :: tag :: rest) = .error PATH_SEGMENT_ERROR)
      ∧ (tag &&& 0xe0 = 0x20 → tag &&& 0x03 ≠ 0x00 → tag &&& 0x03 ≠ 0x01 →
          Request.deserialize r (svc :: 1 :: tag :: rest) = .error PATH_SEGMENT_ERROR)
      ∧ (tag &&& 0xe0 = 0x20 → tag &&& 0x03 = 0x00 →
          tag &&& 0x1c ≠ 0x00 → tag &&& 0x1c ≠ 0x04 → tag &&& 0x1c ≠ 0x10 →
          ∀ v, Request.deserialize r [svc, 1, tag, v] = .error PATH_SEGMENT_ERROR)
      ∧ (tag &&& 0xe0 = 0x20 → tag &&& 0x03 = 0x01 →
          tag &&& 0x1c ≠ 0x00 → tag &&& 0x1c ≠ 0x04 → tag &&& 0x1c ≠ 0x10 →
          ∀ p lo hi, Request.deserialize r [svc, 1, tag, p, lo, hi]
            = .error PATH_SEGMENT_ERROR)
      ∧ (tag &&& 0xe0 = 0x20 → tag &&& 0x03 = 0x00 →
          Request.deserialize r [svc, 1, tag] = .error PATH_SEGMENT_ERROR)
      ∧ (tag &&& 0xe0 = 0x20 → tag &&& 0x03 = 0x01 → ∀ extra : List Nat, extra.length < 3 →
          Request.deserialize r (svc :: 1 :: tag :: extra) = .error PATH_SEGMENT_ERROR) := by
  intro r svc tag rest
  refine ⟨rfl, rfl, rfl, ?_, ?_, ?_, ?_, ?_, ?_⟩
  · intro ht
    simp [Request.deserialize, Request.deserializeSegs, Request.TYPE_MASK,
      Request.TYPE_LOGICAL, ht]
  · intro ht hf0 hf1
    simp [Request.deserialize, Request.deserializeSegs, Request.deserializeLogical,
      Request.TYPE_MASK, Request.TYPE_LOGICAL, Request.FORMAT_MASK, Request.FORMAT_8,
      Request.FORMAT_16, ht, hf0, hf1]
  · intro ht hf hl0 hl1 hl2 v
    simp [Request.deserialize, Request.deserializeSegs, Request.deserializeLogical,
      Request.setLevel, Request.TYPE_MASK, Request.TYPE_LOGICAL, Request.FORMAT_MASK,
      Request.FORMAT_8, Request.FORMAT_16, Request.LEVEL_MASK, Request.LEVEL_CLASS,
      Request.LEVEL_INSTANCE, Request.LEVEL_ATTRIBUTE, ht, hf, hl0, hl1, hl2]
  · intro ht hf hl0 hl1 hl2 p lo hi
    simp [Request.deserialize, Request.deserializeSegs, Request.deserializeLogical,
      Request.setLevel, Request.TYPE_MASK, Request.TYPE_LOGICAL, Request.FORMAT_MASK,
      Request.FORMAT_8, Request.FORMAT_16, Request.LEVEL_MASK, Request.LEVEL_CLASS,
      Request.LEVEL_INSTANCE, Request.LEVEL_ATTRIBUTE, ht, hf, hl0, hl1, hl2]
  · intro ht hf
    simp [Request.deserialize, Request.deserializeSegs, Request.deserializeLogical,
      Request.TYPE_MASK, Request.TYPE_LOGICAL, Request.FORMAT_MASK, Request.FORMAT_8,
      ht, hf]
  · intro ht hf extra hlen
    rcases extra with _ | ⟨x, _ | ⟨y, _ | ⟨z, tl⟩⟩⟩
    · simp [Request.deserialize, Request.deserializeSegs, Request.deserializeLogical,
        Request.TYPE_MASK, Request.TYPE_LOGICAL, Request.FORMAT_MASK, Request.FORMAT_8,
        Request.FORMAT_16, ht, hf]
    · simp [Request.deserialize, Request.deserializeSegs, Request.deserializeLogical,
        Request.TYPE_MASK, Request.TYPE_LOGICAL, Request.FORMAT_MASK, Request.FORMAT_8,
        Request.FORMAT_16, ht, hf]
    · simp [Request.deserialize, Request.deserializeSegs, Request.deserializeLogical,
        Request.TYPE_MASK, Request.TYPE_LOGICAL, Request.FORMAT_MASK, Request.FORMAT_8,
        Request.FORMAT_16, ht, hf]
    · simp at hlen
      omega

/-- C9 witness: the non logical tag 0x40 at a concrete buffer. -/
theorem request_deserialize_path_error_c9_witness :
    Request.deserialize ⟨0, none, none, none⟩ [0x0e, 1, 0x40]
      = .error PATH_SEGMENT_ERROR :=
  (request_deserialize_path_error_c9 ⟨0, none, none, none⟩ 0x0e 0x40 []).2.2.2.1
    (by decide)

/-- C8: for every numeric attribute width and every representable value,
serializing with get permission and deserializing the produced bytes into
an attribute with set permission returns the value. -/
theorem attr_numeric_roundtrip_c8 :
    ∀ (g s : AccessCode), g.getable = true → s.settable = true →
      (∀ v : Int, -128 ≤ v → v < 128 →
        ∃ out : BytesMut, Sint.serialize ⟨v, g⟩ ⟨[], 100⟩ = .ok out
          ∧ Sint.deserialize ⟨0, s⟩ out.data = .ok (⟨v, s⟩, []))
      ∧ (∀ v : Int, -32768 ≤ v → v < 32768 →
        ∃ out : BytesMut, IntAttr.serialize ⟨v, g⟩ ⟨[], 100⟩ = .ok out
          ∧ IntAttr.deserialize ⟨0, s⟩ out.data = .ok (⟨v, s⟩, []))
      ∧ (∀ v : Int, -2147483648 ≤ v → v < 2147483648 →
        ∃ out : BytesMut, DInt.serialize ⟨v, g⟩ ⟨[], 100⟩ = .ok out
          ∧ DInt.deserialize ⟨0, s⟩ out.data = .ok (⟨v, s⟩, []))
      ∧ (∀ v : Nat, v < 256 →
        ∃ out : BytesMut, Usint.serialize ⟨v, g⟩ ⟨[], 100⟩ = .ok out
          ∧ Usint.deserialize ⟨0, s⟩ out.data = .ok (⟨v, s⟩, []))
      ∧ (∀ v : Nat, v < 65536 →
        ∃ out : BytesMut, Uint.serialize ⟨v, g⟩ ⟨[], 100⟩ = .ok out
          ∧ Uint.deserialize ⟨0, s⟩ out.data = .ok (⟨v, s⟩, []))
      ∧ (∀ v : Nat, v < 4294967296 →
        ∃ out : BytesMut, Duint.serialize ⟨v, g⟩ ⟨[], 100⟩ = .ok out
          ∧ Duint.deserialize ⟨0, s⟩ out.data = .ok (⟨v, s⟩, [])) := by
  intro g s hg hs
  refine ⟨?_, ?_, ?_, ?_, ?_, ?_⟩
  · intro v h1 h2
    refine ⟨⟨[(v % 256).toNat], 100⟩, ?_, ?_⟩
    · simp [Sint.serialize, hg, BytesMut.remainingMut, USIZE_MAX, BytesMut.putI8]
    · simp [Sint.deserialize, hs, getI8]
      split <;> omega
  · intro v h1 h2
    refine ⟨⟨[(v % 65536).toNat % 256, (v % 65536).toNat / 256 % 256], 100⟩, ?_, ?_⟩
    · simp [IntAttr.serialize, hg, BytesMut.remainingMut, USIZE_MAX, BytesMut.putI16le]
    · simp [IntAttr.deserialize, hs, getI16le]
      split <;> omega
  · intro v h1 h2
    refine ⟨⟨[(v % 4294967296).toNat % 256, (v % 4294967296).toNat / 256 % 256,
        (v % 4294967296).toNat / 65536 % 256, (v % 4294967296).toNat / 16777216 % 256],
        100⟩, ?_, ?_⟩
    · simp [DInt.serialize, hg, BytesMut.remainingMut, USIZE_MAX, BytesMut.putI32le]
    · simp [DInt.deserialize, hs, getI32le, getU32le]
      split <;> omega
  · intro v h1
    refine ⟨⟨[v % 256], 100⟩, ?_, ?_⟩
    · simp [Usint.serialize, hg, BytesMut.remainingMut, USIZE_MAX, BytesMut.putU8]
    · simp [Usint.deserialize, hs]
      omega
  · intro v h1
    refine ⟨⟨[v % 256, v / 256 % 256], 100⟩, ?_, ?_⟩
    · simp [Uint.serialize, hg, BytesMut.remainingMut, USIZE_MAX, BytesMut.putU16le]
    · simp [Uint.deserialize, hs, getU16le]
      omega
  · intro v h1
    refine ⟨⟨[v % 256, v / 256 % 256, v / 65536 % 256, v / 16777216 % 256], 100⟩, ?_, ?_⟩
    · simp [Duint.serialize, hg, BytesMut.remainingMut, USIZE_MAX, BytesMut.putU32le]
    · simp [Duint.deserialize, hs, getU32le]
      omega

/-- C8 witness: the signed 8 bit width at value -5 with both permissions. -/
theorem attr_numeric_roundtrip_c8_witness :
    ∃ out : BytesMut, Sint.serialize ⟨-5, ⟨3⟩⟩ ⟨[], 100⟩ = .ok out
      ∧ Sint.deserialize ⟨0, ⟨3⟩⟩ out.data = .ok (⟨-5, ⟨3⟩⟩, []) :=
  (attr_numeric_roundtrip_c8 ⟨3⟩ ⟨3⟩ (by decide) (by decide)).1 (-5)
    (by decide) (by decide)

/-- C2: for every frame header type id and every body of at most 65535
bytes, the reserve and backfill framing on a fresh sink yields bytes
identical to the sequential reference encoding: the header serialized with
the length already set to the body length, followed by the body. -/
theorem framing_backfill_eq_direct_c2 :
    ∀ (tid : Nat) (body : List Nat) (cap : Nat), 4 ≤ cap → body.length ≤ 65535 →
      ((frameBackfill tid body ⟨[], cap⟩).map (Except.map BytesMut.data)
          = some (Except.map BytesMut.data (frameDirect tid body ⟨[], cap⟩)))
      ∧ (Except.map BytesMut.data (frameDirect tid body ⟨[], cap⟩)
          = .ok ([tid % 256, tid / 256 % 256, body.length % 256, body.length / 256 % 256]
              ++ body)) := by
  intro tid body cap hcap hlen
  have h1 : ¬ body.length > 65535 := by omega
  constructor
  · simp [frameBackfill, frameDirect, eipSplitOff, Item.serialize, Item.serialSize,
      BytesMut.remainingMut, BytesMut.splitOff, BytesMut.putBytes, BytesMut.putU16le,
      BytesMut.unsplit, USIZE_MAX, hcap, h1, Except.map]
  · simp [frameDirect, Item.serialize, Item.serialSize, BytesMut.remainingMut,
      BytesMut.putBytes, BytesMut.putU16le, USIZE_MAX, h1, Except.map]

/-- C2 witness: framing a 3 byte body under type id 12 with capacity 100. -/
theorem framing_backfill_eq_direct_c2_witness :
    ((frameBackfill 12 [9, 8, 7] ⟨[], 100⟩).map (Except.map BytesMut.data)
        = some (Except.map BytesMut.data (frameDirect 12 [9, 8, 7] ⟨[], 100⟩)))
      ∧ (Except.map BytesMut.data (frameDirect 12 [9, 8, 7] ⟨[], 100⟩)
        = .ok [12, 0, 3, 0, 9, 8, 7]) :=
  framing_backfill_eq_direct_c2 12 [9, 8, 7] 100 (by decide) (by decide)

/-- A value returned by the allocation loop was not yet issued and lies
below 2 ^ 32. -/
theorem Session.findFree_spec (s : Finset Nat) :
    ∀ (fuel idv j : Nat), Session.findFree s idv fuel = some j → j ∉ s ∧ j < 2 ^ 32 := by
  intro fuel
  induction fuel with
  | zero => intro idv j h; simp [Session.findFree] at h
  | succ n ih =>
    intro idv j h
    simp only [Session.findFree] at h
    by_cases hm : ((idv + 1) % 2 ^ 32) ∈ s
    · rw [if_pos hm] at h
      exact ih _ _ h
    · rw [if_neg hm] at h
      obtain rfl : (idv + 1) % 2 ^ 32 = j := by simpa using h
      exact ⟨hm, Nat.mod_lt _ (by positivity)⟩

/-- When the allocation loop runs out of fuel, every candidate visited on
the way was already issued. -/
theorem Session.findFree_none (s : Finset Nat) :
    ∀ (fuel idv : Nat), Session.findFree s idv fuel = none →
      ∀ k, k < fuel → ((idv + 1 + k) % 2 ^ 32) ∈ s := by
  intro fuel
  induction fuel with
  | zero => intro idv h k hk; omega
  | succ n ih =>
    intro idv h k hk
    simp only [Session.findFree] at h
    by_cases hm : ((idv + 1) % 2 ^ 32) ∈ s
    · rw [if_pos hm] at h
      rcases k with _ | k2
      · simpa using hm
      · have h2 := ih _ h k2 (by omega)
        have key : ((idv + 1) % 2 ^ 32 + 1 + k2) % 2 ^ 32
            = (idv + 1 + (k2 + 1)) % 2 ^ 32 := by omega
        rw [key] at h2
        exact h2
    · rw [if_neg hm] at h
      simp at h

/-- When fewer than 2 ^ 32 ids are issued, the allocation loop with
2 ^ 32 steps of fuel finds a free id: among the 2 ^ 32 candidates it
visits, every u32 residue occurs once. -/
theorem Session.findFree_total (s : Finset Nat) (idv : Nat) (h : s.card < 2 ^ 32) :
    ∃ j, Session.findFree s idv (2 ^ 32) = some j := by
  rcases hf : Session.findFree s idv (2 ^ 32) with _ | j
  · exfalso
    have hall := Session.findFree_none s (2 ^ 32) idv hf
    have hsub : (Finset.range (2 ^ 32)).image (fun k => (idv + 1 + k) % 2 ^ 32) ⊆ s := by
      intro x hx
      rw [Finset.mem_image] at hx
      obtain ⟨k, hk, rfl⟩ := hx
      exact hall k (by simpa using hk)
    have hcard : ((Finset.range (2 ^ 32)).image (fun k => (idv + 1 + k) % 2 ^ 32)).card
        = 2 ^ 32 := by
      rw [Finset.card_image_of_injOn, Finset.card_range]
      intro a ha b hb hab
      simp only [Finset.coe_range, Set.mem_Iio] at ha hb
      have hab2 : (idv + 1 + a) % 2 ^ 32 = (idv + 1 + b) % 2 ^ 32 := hab
      omega
    have hle := Finset.card_le_card hsub
    omega
  · exact ⟨j, rfl⟩

/-- C4: when the requested version exceeds the supported VERSION and the
registry has a free id, Session::register still allocates a fresh id
(advancing the counter to it and inserting it into the issued set), still
writes the 4 byte response header with the supported version and zero
option flags, and returns UNSUPPORTED_VERSION as the outcome. -/
theorem session_register_unsupported_version_c4 :
    ∀ (s : Session) (v0 v1 o0 o1 : Nat) (rest : List Nat) (res : BytesMut) (idArg : Nat),
      s.set.card < 2 ^ 32 → 4 ≤ res.remainingMut → VERSION < getU16le v0 v1 →
      ∃ (newId : Nat) (res2 : BytesMut),
        Session.register s (v0 :: v1 :: o0 :: o1 :: rest) res idArg
          = some (⟨newId, insert newId s.set⟩, rest, res2, newId, .error UNSUPPORTED_VERSION)
        ∧ newId ∉ s.set ∧ newId < 2 ^ 32
        ∧ res2.data = res.data ++ [1, 0, 0, 0] := by
  intro s v0 v1 o0 o1 rest res idArg hcard hres hver
  obtain ⟨j, hj⟩ := Session.findFree_total s.set s.id hcard
  have hj2 := Session.findFree_spec s.set (2 ^ 32) s.id j hj
  refine ⟨j, (res.putU16le VERSION).putU16le 0, ?_, hj2.1, hj2.2, ?_⟩
  · simp only [Session.register, List.length_cons]
    rw [if_neg (by omega), if_neg (by omega), hj]
    simp only [VERSION] at hver ⊢
    rw [if_pos (by simpa [getU16le] using hver)]
  · simp [BytesMut.putU16le, VERSION]

/-- C4 witness: registering version 2 against supported version 1 on an
empty registry. -/
theorem session_register_unsupported_version_c4_witness :
    ∃ (newId : Nat) (res2 : BytesMut),
      Session.register ⟨0, ∅⟩ [2, 0, 0, 0] ⟨[], 100⟩ 0
        = some (⟨newId, insert newId (∅ : Finset Nat)⟩, [], res2, newId,
            .error UNSUPPORTED_VERSION)
      ∧ newId ∉ (∅ : Finset Nat) ∧ newId < 2 ^ 32
      ∧ res2.data = ([] : List Nat) ++ [1, 0, 0, 0] :=
  session_register_unsupported_version_c4 ⟨0, ∅⟩ 2 0 0 0 [] ⟨[], 100⟩ 0
    (by simp) (by decide) (by decide)

/-- C10: when Session::register fails with NOT_ENOUGH_DATA (request
shorter than 4 bytes) or REPLY_DATA_TOO_LARGE (response sink without room
for 4 bytes), the registry state, the request buffer, the response sink
and the id out parameter are all returned unchanged. -/
theorem session_register_error_no_mutation_c10 :
    ∀ (s : Session) (req : List Nat) (res : BytesMut) (idArg : Nat),
      req.length < 4 ∨ res.remainingMut < 4 →
      Session.register s req res idArg
        = some (s, req, res, idArg,
            .error (if req.length < 4 then NOT_ENOUGH_DATA else REPLY_DATA_TOO_LARGE)) := by
  intro s req res idArg h
  by_cases h1 : req.length < 4
  · simp only [Session.register]
    rw [if_pos h1, if_pos h1]
  · have h2 : res.remainingMut < 4 := h.resolve_left h1
    simp only [Session.register]
    rw [if_neg h1, if_pos h2, if_neg h1]

/-- C10 witness: a 3 byte request leaves the registry untouched. -/
theorem session_register_error_no_mutation_c10_witness :
    Session.register ⟨0, ∅⟩ [1, 0, 0] ⟨[], 100⟩ 7
      = some (⟨0, ∅⟩, [1, 0, 0], ⟨[], 100⟩, 7, .error NOT_ENOUGH_DATA) :=
  session_register_error_no_mutation_c10 ⟨0, ∅⟩ [1, 0, 0] ⟨[], 100⟩ 7
    (Or.inl (by decide))

/-- C6 evidence: ShortString::with_capacity stores an initial value longer
than the declared capacity unchanged (the logged message claims
truncation), so the length bound of the stored value is violated already
at construction. -/
theorem shortstring_with_capacity_overflow_c6 :
    (ShortString.withCapacity [0x48, 0x69] ⟨3⟩ 1).cap
      < (ShortString.withCapacity [0x48, 0x69] ⟨3⟩ 1).buf.length := by
  decide

/-- C7 evidence: ShortString::set on a string longer than the capacity
slices the value at the capacity index; with capacity 1 and the two byte
character C3 A9 that index is not a character boundary and the slice
panics instead of truncating. -/
theorem shortstring_set_panic_c7 :
    ShortString.set ⟨[], 1, ⟨3⟩⟩ [0xC3, 0xA9] = none := by
  decide
